import Mathlib

/-!
Shallow embedding of the twitter-monitor repository (topyihao/twitter-monitor),
translated from `src/tweet_saver.py` and `src/database_manager.py`.

Modelling conventions:
* A raw feed item (`tweet_results` payload) is modelled by the `Tweet`
  structure holding exactly the fields the monitor reads through the
  `find_one` / `get_content` helpers: the author `rest_id`
  (`user_results -> rest_id`), the tweet `rest_id` itself as an integer,
  its creation time as an integer number of seconds, and the content
  fields consumed by `save_tweet_to_file`.
* `datetime` values are modelled as integers (seconds); `timedelta(minutes=5)`
  is the constant 300.
* The Python `re` operations used by `_clean_text` / `_extract_*` are embedded
  as explicit left-to-right scanners with the same leftmost, non-overlapping,
  greedy semantics; `\w` is modelled as ASCII alphanumeric or underscore.
* The JSON dictionary built by `save_tweet_to_file` is modelled as an ordered
  association list from keys to `Value` entries, mirroring the dict literal including
  the keys that are commented out in the source (which therefore do not appear).
-/

namespace TwitterMonitor

/-- A raw feed item with the fields `tweet_saver.py` reads from the payload. -/
structure Tweet where
  authorId : String
  restId : Int
  createdAt : Int
  text : String
  photoUrls : List String
  videoUrls : List String
  lang : Option String
  location : Option String
  deriving DecidableEq, Repr

/-- `_verify_tweet_user_id(tweet, user_id)`:
`find_one(find_one(tweet, "user_results"), "rest_id") == user_id`. -/
def verifyTweetUserId (t : Tweet) (userId : String) : Bool :=
  t.authorId == userId

/-- `timedelta(minutes=5)` in seconds. -/
def fiveMinutes : Int := 300

/-- `time_threshold = datetime.utcnow() - timedelta(minutes=5)` (line 222). -/
def timeThresholdOf (now : Int) : Int := now - fiveMinutes

/-- The admission test of the filter loop in `TweetSaver.watch` (lines 224-231):
an item survives iff none of the three `continue` guards fires. -/
def keepTweet (userId : String) (lastTweetId timeThreshold : Int) (t : Tweet) : Bool :=
  verifyTweetUserId t userId
    && !decide (t.restId ≤ lastTweetId)
    && !decide (t.createdAt < timeThreshold)

/-- `new_tweet_list` after the filter loop, in fetch order. -/
def newTweets (userId : String) (lastTweetId timeThreshold : Int) (l : List Tweet) : List Tweet :=
  l.filter (keepTweet userId lastTweetId timeThreshold)

/-- `max_tweet_id`, tracked with initial value `-1` (lines 220, 234). -/
def maxTweetId (l : List Tweet) : Int :=
  l.foldl (fun m t => max m t.restId) (-1)

/-- Line 236: `self.last_tweet_id = max(self.last_tweet_id, max_tweet_id)`. -/
def advanceWatermark (lastTweetId maxId : Int) : Int :=
  max lastTweetId maxId

/-- Baseline established by `TweetSaver.__init__` (lines 48-51): the maximum
`rest_id` among fetched items authored by the monitored user, starting at -1. -/
def initLastTweetId (userId : String) (l : List Tweet) : Int :=
  l.foldl (fun m t => if verifyTweetUserId t userId then max m t.restId else m) (-1)

/-- The tweets passed, in order, to `save_tweet_to_file` in one cycle:
`for tweet in reversed(new_tweet_list)` (line 238). -/
def writtenTweets (userId : String) (lastTweetId timeThreshold : Int) (l : List Tweet) :
    List Tweet :=
  (newTweets userId lastTweetId timeThreshold l).reverse

/-- Observable events of one `watch` cycle, in program order: the watermark
assignment of line 236 and each `save_tweet_to_file` call of lines 238-256. -/
inductive WatchEvent where
  | advance (newLast : Int)
  | write (t : Tweet)
  deriving DecidableEq, Repr

def WatchEvent.isAdvance : WatchEvent → Bool
  | .advance _ => true
  | .write _ => false

def WatchEvent.isWrite : WatchEvent → Bool
  | .advance _ => false
  | .write _ => true

/-- The event trace of one successful-fetch cycle of `TweetSaver.watch`:
the filter loop (lines 224-234) produces no events, line 236 assigns the
watermark, then lines 238-256 write each surviving tweet oldest-first. -/
def watchTrace (userId : String) (lastTweetId timeThreshold : Int) (l : List Tweet) :
    List WatchEvent :=
  WatchEvent.advance
      (advanceWatermark lastTweetId (maxTweetId (newTweets userId lastTweetId timeThreshold l)))
    :: (writtenTweets userId lastTweetId timeThreshold l).map WatchEvent.write

/-! ### Text processing (`_clean_text`, `_extract_hashtags`, `_extract_mentions`,
`_extract_urls`, lines 150-174), embedded as explicit scanners over `List Char`
with the leftmost, non-overlapping, greedy semantics. -/

/-- Python `\w` (ASCII fragment): alphanumeric or underscore. -/
def isWordChar (c : Char) : Bool :=
  c.isAlphanum || c == '_'

/-- Maximal run of characters satisfying `p`: returns the run and the rest. -/
def takeRun (p : Char → Bool) : List Char → List Char × List Char
  | [] => ([], [])
  | c :: cs =>
    if p c then
      let r := takeRun p cs
      (c :: r.1, r.2)
    else ([], c :: cs)

/-- One attempt of `re.findall` with pattern `#(\w+)` at the current position for a
given marker character (`'#'` or `'@'`): on success, the captured word run and
the remaining input past the match. -/
def matchTagAt (marker : Char) : List Char → Option (List Char × List Char)
  | m :: c :: cs =>
    if m == marker && isWordChar c then
      let r := takeRun isWordChar cs
      some (c :: r.1, r.2)
    else none
  | _ => none

/-- Scanner for `re.findall` with pattern `#(\w+)` or `@(\w+)`:
left-to-right, non-overlapping; on a failed position advance by one character.
`fuel` is initialised to the input length; each step consumes at least one
character, so the fuel never runs out before the input does. -/
def findTagsAux (marker : Char) : Nat → List Char → List String
  | 0, _ => []
  | _ + 1, [] => []
  | fuel + 1, c :: cs =>
    match matchTagAt marker (c :: cs) with
    | some (w, rest) => String.mk w :: findTagsAux marker fuel rest
    | none => findTagsAux marker fuel cs

/-- `_extract_hashtags` (lines 161-164): `re.findall` with pattern `#(\w+)`. -/
def extractHashtags (s : String) : List String :=
  findTagsAux '#' s.data.length s.data

/-- `_extract_mentions` (lines 166-169): `re.findall` with pattern `@(\w+)`. -/
def extractMentions (s : String) : List String :=
  findTagsAux '@' s.data.length s.data

/-- Membership in the character class of the `_extract_urls` regex
`(?:[a-zA-Z]|[0-9]|[$-_@.&+]|[!*\\(\\),]|(?:%hh))+`: note `[$-_]` is the ASCII
range 36-95 (which also covers `@ . & + * \ ( ) , %`), so the union is
letters, digits, codepoints 36-95, and `!`. -/
def isUrlChar (c : Char) : Bool :=
  c.isAlpha || c.isDigit || (decide (36 ≤ c.toNat) && decide (c.toNat ≤ 95)) || c == '!'

/-- One attempt of the `_extract_urls` regex at the current position:
`http`, optional `s`, `://`, then a maximal nonempty run of `isUrlChar`. -/
def matchUrlAt : List Char → Option (List Char × List Char)
  | 'h' :: 't' :: 't' :: 'p' :: rest =>
    match rest with
    | 's' :: ':' :: '/' :: '/' :: r =>
      match r with
      | c :: cs =>
        if isUrlChar c then
          let p := takeRun isUrlChar cs
          some ('h' :: 't' :: 't' :: 'p' :: 's' :: ':' :: '/' :: '/' :: c :: p.1, p.2)
        else none
      | [] => none
    | ':' :: '/' :: '/' :: r =>
      match r with
      | c :: cs =>
        if isUrlChar c then
          let p := takeRun isUrlChar cs
          some ('h' :: 't' :: 't' :: 'p' :: ':' :: '/' :: '/' :: c :: p.1, p.2)
        else none
      | [] => none
    | _ => none
  | _ => none

/-- Scanner for `re.findall` with the URL pattern of `_extract_urls`. -/
def findUrlsAux : Nat → List Char → List String
  | 0, _ => []
  | _ + 1, [] => []
  | fuel + 1, c :: cs =>
    match matchUrlAt (c :: cs) with
    | some (w, rest) => String.mk w :: findUrlsAux fuel rest
    | none => findUrlsAux fuel cs

/-- `_extract_urls` (lines 171-174). -/
def extractUrls (s : String) : List String :=
  findUrlsAux s.data.length s.data

/-- One attempt of the pattern `http\S+|www.\S+` of `re.sub` at the
current position (alternatives tried in order; `.` is any character except
newline; `\S+` is a maximal nonempty run of non-whitespace). On success,
returns the input remaining after the match. -/
def matchUrlLikeAt : List Char → Option (List Char)
  | 'h' :: 't' :: 't' :: 'p' :: c :: cs =>
    if !c.isWhitespace then some (takeRun (fun x => !x.isWhitespace) cs).2
    else none
  | 'w' :: 'w' :: 'w' :: d :: c :: cs =>
    if d != '\n' && !c.isWhitespace then some (takeRun (fun x => !x.isWhitespace) cs).2
    else none
  | _ => none

/-- Scanner for `re.sub` removing pattern `http\S+|www.\S+` (line 154). -/
def subUrlAux : Nat → List Char → List Char
  | 0, l => l
  | _ + 1, [] => []
  | fuel + 1, c :: cs =>
    match matchUrlLikeAt (c :: cs) with
    | some rest => subUrlAux fuel rest
    | none => c :: subUrlAux fuel cs

/-- One attempt of the pattern `@\w+` of `re.sub` at the current
position: `@` followed by a maximal nonempty word run. -/
def matchMentionAt : List Char → Option (List Char)
  | '@' :: c :: cs =>
    if isWordChar c then some (takeRun isWordChar cs).2 else none
  | _ => none

/-- Scanner for `re.sub` removing pattern `@\w+` (line 156). -/
def subMentionAux : Nat → List Char → List Char
  | 0, l => l
  | _ + 1, [] => []
  | fuel + 1, c :: cs =>
    match matchMentionAt (c :: cs) with
    | some rest => subMentionAux fuel rest
    | none => c :: subMentionAux fuel cs

/-- Python `text.split()`: split on runs of whitespace, dropping empties. -/
def splitWsAux : Nat → List Char → List (List Char)
  | 0, _ => []
  | fuel + 1, l =>
    match (takeRun Char.isWhitespace l).2 with
    | [] => []
    | c :: cs =>
      let p := takeRun (fun x => !x.isWhitespace) cs
      (c :: p.1) :: splitWsAux fuel p.2

/-- `' '.join(words)`. -/
def joinWords : List (List Char) → List Char
  | [] => []
  | [w] => w
  | w :: ws => w ++ ' ' :: joinWords ws

/-- Python `str.strip()`: drop leading and trailing whitespace. -/
def stripWs (l : List Char) : List Char :=
  ((takeRun Char.isWhitespace
      ((takeRun Char.isWhitespace l).2.reverse)).2).reverse

/-- `_clean_text` (lines 150-159): remove URL-like substrings, remove
mentions, collapse whitespace, strip. -/
def cleanText (s : String) : String :=
  let l1 := subUrlAux s.data.length s.data
  let l2 := subMentionAux l1.length l1
  let l3 := joinWords (splitWsAux (l2.length + 1) l2)
  String.mk (stripWs l3)

/-! ### The persisted record (`save_tweet_to_file`, lines 66-148) -/

/-- JSON-like values appearing in the output dictionary. -/
inductive Value where
  | s (v : String)
  | list (v : List String)
  | b (v : Bool)
  | obj (v : List (String × Value))
  | null

/-- Render an optional string the way `dict.get` yields it (`None` → null). -/
def Value.ofOpt : Option String → Value
  | some v => .s v
  | none => .null

/-- The dictionary literal built by `save_tweet_to_file` (lines 84-131), as an
ordered association list. Keys follow the source exactly; the engagement,
relationship-flag, reply-to, client and quoted-tweet entries are commented out
in the source and therefore absent. `timestamp` is the wall-clock string of
line 78; `text` is the text argument assembled by `watch`. -/
def buildOutput (username timestamp : String) (t : Tweet) (text : String)
    (photoUrls videoUrls : List String) : List (String × Value) :=
  [("tweet_id", .s (toString t.restId)),
   ("username", .s username),
   ("timestamp", .s timestamp),
   ("created_at", .s (toString t.createdAt)),
   ("cleaned_text", .s (cleanText text)),
   ("hashtags", .list (extractHashtags text)),
   ("mentions", .list (extractMentions text)),
   ("urls", .list (extractUrls text)),
   ("media", .obj [("photos", .list photoUrls),
                   ("videos", .list videoUrls),
                   ("has_media", .b (!photoUrls.isEmpty || !videoUrls.isEmpty))]),
   ("language", Value.ofOpt t.lang),
   ("location", Value.ofOpt t.location)]

/-- Line 142: `filename = f"{tweet_id}_{timestamp}.json"`. -/
def saveFileName (tweetId timestamp : String) : String :=
  tweetId ++ "_" ++ timestamp ++ ".json"

/-! ### Storage sinks and the write loop

Write effects are modelled by a function giving, per tweet, the outcome the
underlying I/O operation would have (`Except.ok` or a raised exception).
`save_tweet_to_file` (lines 142-148) performs `open`/`json.dump` with no
`try`/`except`, so an exception propagates to the caller;
`DatabaseManager.save_tweet` (lines 43-56) wraps its body in `try`/`except`
and returns a boolean. -/

/-- `DatabaseManager.save_tweet`: `try: ...insert...; return True` /
`except` logging and returning `False` — the outcome of the body is the argument. -/
def dbSaveTweet (insertResult : Except String Unit) : Bool :=
  match insertResult with
  | .ok _ => true
  | .error _ => false

/-- A batch written through `DatabaseManager.save_tweet`: every record is
attempted, each yielding its own boolean, independent of the others. -/
def dbWritesRun (result : Tweet → Except String Unit) (ts : List Tweet) :
    List (Tweet × Bool) :=
  ts.map (fun t => (t, dbSaveTweet (result t)))

/-- The file-variant write loop of `watch` (lines 238-256): each
`save_tweet_to_file` call is unguarded, so the first raised exception aborts
the loop. Returns the successfully written tweets (in order) and the raised
exception, if any. -/
def fileWritesRun (write : Tweet → Except String Unit) : List Tweet →
    List Tweet × Option String
  | [] => ([], none)
  | t :: ts =>
    match write t with
    | .error e => ([], some e)
    | .ok _ =>
      let r := fileWritesRun write ts
      (t :: r.1, r.2)

/-- The outcome of one `TweetSaver.watch` invocation: `returned (some b)` for a
normal `return b`, `returned none` for an exception escaping `watch`; the final
`last_tweet_id`; the tweets successfully written this cycle. -/
structure WatchResult where
  returned : Option Bool
  lastTweetId : Int
  written : List Tweet
  deriving DecidableEq, Repr

/-- `TweetSaver.watch` (lines 214-259): `fetched` is the result of `get_tweet_list()` (`none` models the `None` return on transport failure); on a fetched
list the filter loop runs, line 236 advances the watermark, then the write
loop runs with unguarded `save_tweet_to_file` calls. -/
def watchCycle (userId : String) (timeThreshold : Int)
    (write : Tweet → Except String Unit) (fetched : Option (List Tweet))
    (lastTweetId : Int) : WatchResult :=
  match fetched with
  | none => ⟨some false, lastTweetId, []⟩
  | some l =>
    let nt := newTweets userId lastTweetId timeThreshold l
    let newLast := advanceWatermark lastTweetId (maxTweetId nt)
    let r := fileWritesRun write nt.reverse
    match r.2 with
    | none => ⟨some true, newLast, r.1⟩
    | some _ => ⟨none, newLast, r.1⟩

/-- The watermark after one cycle, as a function of the fetched batch (the
only state `watch` updates besides the last-watch time). -/
def cycleLast (userId : String) (timeThreshold : Int) (fetched : Option (List Tweet))
    (lastTweetId : Int) : Int :=
  match fetched with
  | none => lastTweetId
  | some l =>
    advanceWatermark lastTweetId (maxTweetId (newTweets userId lastTweetId timeThreshold l))

/-- The watermark after a sequence of cycles, each with its own fetched batch
and time threshold. -/
def runCycles (userId : String) (lastTweetId : Int) :
    List (Option (List Tweet) × Int) → Int
  | [] => lastTweetId
  | c :: cs => runCycles userId (cycleLast userId c.2 c.1 lastTweetId) cs

/-! ### Sample tweets used in witnesses and counterexamples -/

/-- A sample tweet authored by user `"u"` with id 1, created at time 0. -/
def tA : Tweet := ⟨"u", 1, 0, "", [], [], none, none⟩

/-- A sample tweet authored by user `"u"` with id 2, created at time 1. -/
def tB : Tweet := ⟨"u", 2, 1, "", [], [], none, none⟩

/-- A write effect that always raises (models `open`/`json.dump` failing). -/
def failingWrite : Tweet → Except String Unit := fun _ => Except.error "disk full"

/-- A write effect that always succeeds. -/
def okWrite : Tweet → Except String Unit := fun _ => Except.ok ()

/-! ### Claims -/

/-- C2: for every cycle and fetched batch, no item whose `itemId` is at most
the watermark taken at the start of the cycle is ever normalized or passed to
the storage sink in that cycle: it is excluded from `new_tweet_list` by the
dedup guard of line 228, hence also from the replay of lines 238-256. -/
theorem C2_dedup_watermark_excludes
    (userId : String) (lastTweetId timeThreshold : Int) (l : List Tweet) (t : Tweet)
    (h : t.restId ≤ lastTweetId) :
    t ∉ newTweets userId lastTweetId timeThreshold l
    ∧ t ∉ writtenTweets userId lastTweetId timeThreshold l := by
  have hnot : t ∉ newTweets userId lastTweetId timeThreshold l := by
    intro hmem
    rw [newTweets] at hmem
    rcases List.mem_filter.mp hmem with ⟨-, hk⟩
    simp only [keepTweet, Bool.and_eq_true, Bool.not_eq_true',
      decide_eq_false_iff_not] at hk
    exact hk.1.2 h
  exact ⟨hnot, fun hmem => hnot (List.mem_reverse.mp hmem)⟩

/-- Witness for C2 at a concrete input: a tweet with id 1 against watermark 5
is neither admitted nor written. -/
theorem C2_dedup_watermark_excludes_witness :
    tA ∉ newTweets "u" 5 0 [tA] ∧ tA ∉ writtenTweets "u" 5 0 [tA] :=
  C2_dedup_watermark_excludes "u" 5 0 [tA] tA (by decide)

/-- C8: an item whose `createdAt` is older than five minutes before the
fetch time of the cycle is rejected by the freshness guard of lines 222 and 230 —
never normalized or written — even when its id exceeds the watermark. -/
theorem C8_freshness_window_rejects
    (userId : String) (lastTweetId now : Int) (l : List Tweet) (t : Tweet)
    (hold : t.createdAt < timeThresholdOf now) (_hnew : lastTweetId < t.restId) :
    t ∉ newTweets userId lastTweetId (timeThresholdOf now) l
    ∧ t ∉ writtenTweets userId lastTweetId (timeThresholdOf now) l := by
  have hnot : t ∉ newTweets userId lastTweetId (timeThresholdOf now) l := by
    intro hmem
    rw [newTweets] at hmem
    rcases List.mem_filter.mp hmem with ⟨-, hk⟩
    simp only [keepTweet, Bool.and_eq_true, Bool.not_eq_true',
      decide_eq_false_iff_not] at hk
    exact hk.2 hold
  exact ⟨hnot, fun hmem => hnot (List.mem_reverse.mp hmem)⟩

/-- Witness for C8 at a concrete input: with fetch time 1000 (threshold 700),
a tweet created at time 0 with id 1 above watermark 0 is rejected. -/
theorem C8_freshness_window_rejects_witness :
    tA ∉ newTweets "u" 0 (timeThresholdOf 1000) [tA]
    ∧ tA ∉ writtenTweets "u" 0 (timeThresholdOf 1000) [tA] :=
  C8_freshness_window_rejects "u" 0 1000 [tA] tA (by decide) (by decide)

/-- C3: the watermark is monotonically non-decreasing across any sequence of
cycles; a cycle with zero surviving items leaves it unchanged (given the
`-1` lower bound established at initialization); the advance of line 236
computes `max(last_tweet_id, max_tweet_id)`, never decreases, and is
idempotent; and the initial watermark is at least `-1`. -/
theorem C3_watermark_monotone :
    (∀ (userId : String) (lastTweetId : Int) (cs : List (Option (List Tweet) × Int)),
      lastTweetId ≤ runCycles userId lastTweetId cs)
    ∧ (∀ (userId : String) (timeThreshold lastTweetId : Int) (l : List Tweet),
        newTweets userId lastTweetId timeThreshold l = [] → (-1 : Int) ≤ lastTweetId →
        cycleLast userId timeThreshold (some l) lastTweetId = lastTweetId)
    ∧ (∀ lastTweetId maxId : Int, lastTweetId ≤ advanceWatermark lastTweetId maxId)
    ∧ (∀ lastTweetId maxId : Int,
        advanceWatermark (advanceWatermark lastTweetId maxId) maxId
          = advanceWatermark lastTweetId maxId)
    ∧ (∀ (userId : String) (l : List Tweet), (-1 : Int) ≤ initLastTweetId userId l) := by
  have hstep : ∀ (userId : String) (thr : Int) (f : Option (List Tweet)) (last : Int),
      last ≤ cycleLast userId thr f last := by
    intro u thr f last
    cases f with
    | none => exact le_refl _
    | some l => exact le_max_left _ _
  refine ⟨?_, ?_, ?_, ?_, ?_⟩
  · intro u last cs
    induction cs generalizing last with
    | nil => exact le_refl _
    | cons c cs ih => exact le_trans (hstep u c.2 c.1 last) (ih _)
  · intro u thr last l hempty hlb
    simp only [cycleLast, hempty, advanceWatermark, maxTweetId, List.foldl_nil]
    exact max_eq_left hlb
  · intro last m
    exact le_max_left _ _
  · intro last m
    simp only [advanceWatermark]
    rw [max_assoc, max_self]
  · intro u l
    have : ∀ (l : List Tweet) (m : Int), m ≤
        l.foldl (fun m t => if verifyTweetUserId t u then max m t.restId else m) m := by
      intro l
      induction l with
      | nil => intro m; exact le_refl _
      | cons t ts ih =>
        intro m
        refine le_trans ?_ (ih (if verifyTweetUserId t u then max m t.restId else m))
        split
        · exact le_max_left _ _
        · exact le_refl _
    exact this l (-1)

/-- Witness for the conditional conjunct of C3 at a concrete input: an empty
surviving batch leaves the watermark 0 unchanged. -/
theorem C3_watermark_monotone_witness :
    cycleLast "u" 700 (some []) 0 = 0 :=
  C3_watermark_monotone.2.1 "u" 700 0 [] (by decide) (by decide)

/-- C4: within one cycle, the surviving items are replayed in reverse of
fetch order (line 238), so if the feed returned the batch newest-first
(strictly decreasing id and creation time), the records reach the sink in
strictly increasing `createdAt`/`itemId` order. -/
theorem C4_chronological_replay
    (userId : String) (lastTweetId timeThreshold : Int) (l : List Tweet)
    (hfetch : l.Pairwise (fun a b => b.restId < a.restId ∧ b.createdAt < a.createdAt)) :
    writtenTweets userId lastTweetId timeThreshold l
      = (newTweets userId lastTweetId timeThreshold l).reverse
    ∧ (writtenTweets userId lastTweetId timeThreshold l).Pairwise
        (fun a b => a.restId < b.restId ∧ a.createdAt < b.createdAt) := by
  refine ⟨rfl, ?_⟩
  rw [writtenTweets, List.pairwise_reverse, newTweets]
  exact hfetch.sublist (List.filter_sublist l)

/-- Witness for C4 at a concrete input: the batch `[tB, tA]` fetched
newest-first is written `[tA, tB]`, oldest-first. -/
theorem C4_chronological_replay_witness :
    writtenTweets "u" 0 0 [tB, tA] = (newTweets "u" 0 0 [tB, tA]).reverse
    ∧ (writtenTweets "u" 0 0 [tB, tA]).Pairwise
        (fun a b => a.restId < b.restId ∧ a.createdAt < b.createdAt) :=
  C4_chronological_replay "u" 0 0 [tB, tA] (by decide)

/-- C10: the hashtag/mention/URL extraction and the cleaned text stored in the
record are computed from the original pre-cleaning text (lines 93-96);
extraction is idempotent in the sense that re-extracting from the rendered
extraction result, and re-cleaning the cleaned text, change nothing (witnessed
at the concrete inputs of the claim); and the two concrete evaluations of the claim
hold. -/
theorem C10_extraction_pre_cleaning :
    (∀ (username timestamp : String) (t : Tweet) (text : String)
        (pu vu : List String),
      List.lookup "hashtags" (buildOutput username timestamp t text pu vu)
          = some (Value.list (extractHashtags text))
        ∧ List.lookup "mentions" (buildOutput username timestamp t text pu vu)
          = some (Value.list (extractMentions text))
        ∧ List.lookup "urls" (buildOutput username timestamp t text pu vu)
          = some (Value.list (extractUrls text))
        ∧ List.lookup "cleaned_text" (buildOutput username timestamp t text pu vu)
          = some (Value.s (cleanText text)))
    ∧ extractHashtags "Hello #Foo #bar!" = ["Foo", "bar"]
    ∧ cleanText "check http://x.co @bob   now" = "check now"
    ∧ cleanText (cleanText "check http://x.co @bob   now")
        = cleanText "check http://x.co @bob   now"
    ∧ extractHashtags (String.intercalate " "
        ((extractHashtags "Hello #Foo #bar!").map (fun h => "#" ++ h)))
        = extractHashtags "Hello #Foo #bar!" := by
  refine ⟨fun username timestamp t text pu vu => ⟨rfl, rfl, rfl, rfl⟩, ?_, ?_, ?_, ?_⟩
  · decide
  · decide
  · decide
  · decide

/-- C1 as stated: in the event trace of a cycle, every watermark advance comes
after every storage write. -/
def advanceAfterAllWrites (tr : List WatchEvent) : Prop :=
  ∀ (i j : Fin tr.length),
    (tr.get i).isAdvance = true → (tr.get j).isWrite = true → (j : Nat) < (i : Nat)

instance (tr : List WatchEvent) : Decidable (advanceAfterAllWrites tr) := by
  unfold advanceAfterAllWrites
  infer_instance

/-- Counterexample to C1: with watermark 0 and the single fetched tweet `tA`
(id 1), the trace of the cycle is `[advance 1, write tA]` — the watermark is
assigned at line 236, before the write loop of lines 238-256, so the advance
does not come after the write of the batch. -/
theorem C1_counterexample : ¬ advanceAfterAllWrites (watchTrace "u" 0 0 [tA]) := by
  decide

/-- In a trace whose head is an advance and whose tail holds no advance,
every advance index precedes every write index. -/
theorem advance_head_precedes (a : Int) (ws : List WatchEvent)
    (hws : ∀ e ∈ ws, e.isAdvance = false) :
    ∀ (i j : Fin (WatchEvent.advance a :: ws).length),
      ((WatchEvent.advance a :: ws).get i).isAdvance = true →
      ((WatchEvent.advance a :: ws).get j).isWrite = true →
      (i : Nat) < (j : Nat) := by
  rintro ⟨iv, hiv⟩ ⟨jv, hjv⟩ hi hj
  cases jv with
  | zero => simp [WatchEvent.isWrite] at hj
  | succ k =>
    cases iv with
    | zero => exact Nat.succ_pos k
    | succ m =>
      exfalso
      have hm : m < ws.length := Nat.lt_of_succ_lt_succ hiv
      have hget : ((WatchEvent.advance a :: ws).get ⟨m + 1, hiv⟩)
          = ws.get ⟨m, hm⟩ := rfl
      rw [hget] at hi
      have := hws _ (ws.get_mem m hm)
      rw [this] at hi
      exact Bool.false_ne_true hi

/-- C1 (amended): the advance is batch-level — exactly one advance event per
cycle — and it occurs after the filter loop but before the write loop, so it
precedes every write of the batch. -/
theorem C1_amended_advance_precedes_writes
    (userId : String) (lastTweetId timeThreshold : Int) (l : List Tweet) :
    ((watchTrace userId lastTweetId timeThreshold l).filter WatchEvent.isAdvance).length = 1
    ∧ ∀ (i j : Fin (watchTrace userId lastTweetId timeThreshold l).length),
        ((watchTrace userId lastTweetId timeThreshold l).get i).isAdvance = true →
        ((watchTrace userId lastTweetId timeThreshold l).get j).isWrite = true →
        (i : Nat) < (j : Nat) := by
  have hws : ∀ e ∈ (writtenTweets userId lastTweetId timeThreshold l).map WatchEvent.write,
      WatchEvent.isAdvance e = false := by
    intro e he
    rcases List.mem_map.mp he with ⟨t, -, rfl⟩
    rfl
  have hfil : ∀ ws : List Tweet,
      (ws.map WatchEvent.write).filter WatchEvent.isAdvance = [] := by
    intro ws
    induction ws with
    | nil => rfl
    | cons t ts ih => simp [List.filter_cons, WatchEvent.isAdvance, ih]
  constructor
  · simp [watchTrace, List.filter_cons, WatchEvent.isAdvance, hfil]
  · exact advance_head_precedes _ _ hws

/-- Witness for C1 (amended) at a concrete input: in the trace of the cycle
over the batch `[tA]`, the advance at index 0 precedes the write at index 1. -/
theorem C1_amended_advance_precedes_writes_witness :
    ((watchTrace "u" 0 0 [tA]).filter WatchEvent.isAdvance).length = 1
    ∧ (0 : Nat) < 1 :=
  ⟨(C1_amended_advance_precedes_writes "u" 0 0 [tA]).1,
   (C1_amended_advance_precedes_writes "u" 0 0 [tA]).2
     ⟨0, by decide⟩ ⟨1, by decide⟩ (by decide) (by decide)⟩

/-- Counterexample to C5: the record built by `save_tweet_to_file` for a
concrete tweet contains no engagement counters, no relationship flags, and no
conversation/reply identifier — those dictionary entries are commented out in
the source (lines 105-125). -/
theorem C5_counterexample :
    "engagement" ∉ (buildOutput "u" "ts" tA "hi" [] []).map Prod.fst
    ∧ "retweet_count" ∉ (buildOutput "u" "ts" tA "hi" [] []).map Prod.fst
    ∧ "is_retweet" ∉ (buildOutput "u" "ts" tA "hi" [] []).map Prod.fst
    ∧ "is_reply" ∉ (buildOutput "u" "ts" tA "hi" [] []).map Prod.fst
    ∧ "is_quote" ∉ (buildOutput "u" "ts" tA "hi" [] []).map Prod.fst
    ∧ "reply_to" ∉ (buildOutput "u" "ts" tA "hi" [] []).map Prod.fst := by
  refine ⟨?_, ?_, ?_, ?_, ?_, ?_⟩ <;> decide

/-- C5 (amended): every record produced for persistence contains exactly the
identifier, account, wall-clock timestamp, creation timestamp, cleaned text,
hashtags, mentions, URLs, media (photos, videos, has_media), language and
location fields; the engagement counters, relationship flags, reply context,
client and quoted-tweet fields are commented out and absent. -/
theorem C5_amended_record_fields
    (username timestamp : String) (t : Tweet) (text : String)
    (pu vu : List String) :
    (buildOutput username timestamp t text pu vu).map Prod.fst
      = ["tweet_id", "username", "timestamp", "created_at", "cleaned_text",
         "hashtags", "mentions", "urls", "media", "language", "location"]
    ∧ ∀ k ∈ (buildOutput username timestamp t text pu vu).map Prod.fst,
        k ∉ ["engagement", "retweet_count", "reply_count", "like_count",
             "quote_count", "is_retweet", "is_reply", "is_quote", "reply_to",
             "client", "quoted_tweet"] := by
  refine ⟨rfl, ?_⟩
  intro k hk
  have hk' : k ∈ ["tweet_id", "username", "timestamp", "created_at", "cleaned_text",
      "hashtags", "mentions", "urls", "media", "language", "location"] := by
    simpa [buildOutput] using hk
  simp only [List.mem_cons, List.not_mem_nil, or_false] at hk'
  rcases hk' with rfl | rfl | rfl | rfl | rfl | rfl | rfl | rfl | rfl | rfl | rfl <;> decide

/-- Witness for C5 (amended) at a concrete input: the key `"tweet_id"` is
among the keys of the record and is none of the absent keys. -/
theorem C5_amended_record_fields_witness :
    "tweet_id" ∉ ["engagement", "retweet_count", "reply_count", "like_count",
      "quote_count", "is_retweet", "is_reply", "is_quote", "reply_to",
      "client", "quoted_tweet"] :=
  (C5_amended_record_fields "u" "ts" tA "hi" [] []).2 "tweet_id" (by decide)

/-- Counterexample to C6: in the file variant, `save_tweet_to_file`
(lines 142-148) has no `try`/`except` — with a write effect that raises on
the first record of the batch, the exception propagates out of the write loop
(it is not converted to a boolean) and the remaining record is not written. -/
theorem C6_counterexample :
    (fileWritesRun failingWrite [tA, tB]).2 = some "disk full"
    ∧ tB ∉ (fileWritesRun failingWrite [tA, tB]).1 := by
  decide

/-- C6 (amended): only the document-database variant
(`DatabaseManager.save_tweet`, lines 43-56) catches every error of the write of a single
record and converts it to a boolean failure signal, and there a batch
attempts every record independently of failures of other records; in the file
variant the first raised write error propagates out of the loop and the
remaining records of the batch are not written. -/
theorem C6_amended_write_error_handling :
    (∀ e : String, dbSaveTweet (Except.error e) = false)
    ∧ dbSaveTweet (Except.ok ()) = true
    ∧ (∀ (result : Tweet → Except String Unit) (ts : List Tweet),
        (dbWritesRun result ts).length = ts.length
        ∧ ∀ p ∈ dbWritesRun result ts, p.2 = dbSaveTweet (result p.1))
    ∧ (∀ (write : Tweet → Except String Unit) (e : String) (t : Tweet)
        (ts : List Tweet), write t = Except.error e →
        fileWritesRun write (t :: ts) = ([], some e)) := by
  refine ⟨fun e => rfl, rfl, ?_, ?_⟩
  · intro result ts
    refine ⟨by simp [dbWritesRun], ?_⟩
    intro p hp
    rcases List.mem_map.mp hp with ⟨t, -, rfl⟩
    rfl
  · intro write e t ts h
    simp [fileWritesRun, h]

/-- Witness for C6 (amended) at a concrete input: a failing first write makes
the file-variant loop return no written records and the raised error. -/
theorem C6_amended_write_error_handling_witness :
    fileWritesRun failingWrite (tA :: [tB]) = ([], some "disk full") :=
  C6_amended_write_error_handling.2.2.2 failingWrite "disk full" tA [tB] rfl

/-- Counterexample to C7: the file name of line 142 is
`f"{tweet_id}_{timestamp}.json"` — it depends on the wall-clock timestamp, so
two writes of the same `tweet_id` at different timestamps go to two distinct
files, not one file named by the id alone. -/
theorem C7_counterexample :
    saveFileName "123" "20250101_000000" ≠ saveFileName "123" "20250101_000001" := by
  decide

/-- C7 (amended): the file name is determined jointly by the record id and
the wall-clock timestamp string: writes of the same id at the same timestamp
overwrite the same file (idempotent), while writes at different timestamps
produce distinct files. -/
theorem C7_amended_file_name_keyed_by_id_and_time
    (tweetId t1 t2 : String) :
    saveFileName tweetId t1 = saveFileName tweetId t2 ↔ t1 = t2 := by
  constructor
  · intro h
    have hd := congrArg String.data h
    simp only [saveFileName, String.data_append, List.append_assoc] at hd
    have h1 := List.append_cancel_left hd
    have h2 := List.append_cancel_left h1
    have h3 := List.append_cancel_right h2
    exact String.ext h3
  · intro h
    rw [h]

/-- Witness for C7 (amended) at concrete inputs. -/
theorem C7_amended_file_name_keyed_by_id_and_time_witness :
    saveFileName "123" "a" = saveFileName "123" "b" ↔ "a" = "b" :=
  C7_amended_file_name_keyed_by_id_and_time "123" "a" "b"

/-- Counterexample to C9: with a successful fetch of one admissible tweet but
a write that raises, the exception escapes `watch` (lines 238-256 are
unguarded): the cycle neither succeeds nor reports the boolean failure, so a
successful fetch does not imply a successful cycle. -/
theorem C9_counterexample :
    (watchCycle "u" 0 failingWrite (some [tA]) 0).returned ≠ some true
    ∧ (watchCycle "u" 0 failingWrite (some [tA]) 0).returned ≠ some false := by
  decide

/-- C9 (amended): the cycle returns the boolean failure `False` exactly when
the fetch yields null, and then the watermark is unchanged and nothing is
written; a successful fetch yields a successful cycle provided no write
raises — in particular an empty fetched list always succeeds — while a raised
write exception escapes the cycle. -/
theorem C9_amended_cycle_outcome
    (userId : String) (timeThreshold : Int) (write : Tweet → Except String Unit)
    (fetched : Option (List Tweet)) (lastTweetId : Int) :
    ((watchCycle userId timeThreshold write fetched lastTweetId).returned = some false
      ↔ fetched = none)
    ∧ (fetched = none →
        (watchCycle userId timeThreshold write fetched lastTweetId).lastTweetId = lastTweetId
        ∧ (watchCycle userId timeThreshold write fetched lastTweetId).written = [])
    ∧ (∀ l, fetched = some l → (∀ t, write t = Except.ok ()) →
        (watchCycle userId timeThreshold write fetched lastTweetId).returned = some true)
    ∧ (fetched = some [] →
        (watchCycle userId timeThreshold write fetched lastTweetId).returned = some true) := by
  have hok : ∀ ts : List Tweet, (∀ t, write t = Except.ok ()) →
      (fileWritesRun write ts).2 = none := by
    intro ts hw
    induction ts with
    | nil => rfl
    | cons t ts ih => simp [fileWritesRun, hw t, ih]
  cases fetched with
  | none =>
    refine ⟨by simp [watchCycle], fun _ => ⟨rfl, rfl⟩, ?_, ?_⟩
    · intro l h
      cases h
    · intro h
      cases h
  | some l =>
    refine ⟨?_, ?_, ?_, ?_⟩
    · constructor
      · intro h
        exfalso
        simp only [watchCycle] at h
        split at h
        · exact Bool.noConfusion (Option.some.inj h)
        · exact Option.noConfusion h
      · intro h
        cases h
    · intro h
      cases h
    · intro l' hl hw
      obtain rfl : l = l' := by injection hl
      have h2 := hok ((newTweets userId lastTweetId timeThreshold l).reverse) hw
      simp [watchCycle, h2]
    · intro hl
      obtain rfl : l = [] := by injection hl
      rfl

/-- Witness for C9 (amended) at a concrete input: with a never-raising write,
a successful fetch of one admissible tweet yields a successful cycle. -/
theorem C9_amended_cycle_outcome_witness :
    (watchCycle "u" 0 okWrite (some [tA]) 0).returned = some true :=
  (C9_amended_cycle_outcome "u" 0 okWrite (some [tA]) 0).2.2.1 [tA] rfl (fun _ => rfl)

end TwitterMonitor

